import Mathlib

/-!
Verification development for the purser validation layer
(src/trezor/validators.js together with the message catalog in
src/trezor/messages.js).

JavaScript strings are modelled as lists of characters, JavaScript
numbers as integers (every value the claims exercise is integral), and
the loosely typed inputs of the validators as an inductive universe of
JavaScript values.  Each validator is translated into the Except monad:
a thrown failure becomes an error value carrying the message-catalog
key of the raised diagnostic, and a JavaScript TypeError (calling a
method of undefined) becomes a distinguished typeError outcome.
-/

namespace Purser

/-- JavaScript strings, modelled as lists of characters. -/
abbrev JsStr := List Char

/-- The apostrophe character U+0027, written via its code point. -/
def apostrophe : Char := Char.ofNat 39

/-- Universe of JavaScript values a validator may receive.  The bn
constructor stands for an instance of the BN (bn.js) big-number class,
carrying its integer value. -/
inductive Value where
  | str (s : JsStr)
  | num (n : Int)
  | bool (b : Bool)
  | null
  | undef
  | bn (n : Int)
deriving DecidableEq, Repr

/-- Keys of the validator message catalog (src/trezor/messages.js),
one constructor per entry of the validators object, prefixed by the
validator they belong to. -/
inductive MsgKey where
  | dpNotString
  | dpNotValidParts
  | dpNotValidHeaderKey
  | dpNotValidPurpouse
  | dpNotValidCoin
  | dpNotValidAccount
  | dpNotValidChangeIndex
  | dpNotValidAccountIndex
  | dpGenericError
  | siNotNumber
  | siNotPositive
  | siNotSafe
  | siGenericError
  | bnNotBigNumber
  | bnGenericError
  | addrNotStringSequence
  | addrNotLength
  | addrNotFormat
  | addrNotChecksum
  | addrGenericError
  | hexNotStringSequence
  | hexNotFormat
  | hexGenericError
deriving DecidableEq, Repr

/-- The catalog text of each message key, copied from
src/trezor/messages.js. -/
def messageText : MsgKey → String
  | .dpNotString => "Derivation path is not the correct type (expected a String)"
  | .dpNotValidParts => "Derivation path does not contain the required parts (Purpouse, Coin Id, Account, Change + Index)"
  | .dpNotValidHeaderKey => "Derivation path does not start with the correct header key"
  | .dpNotValidPurpouse => "Derivation path does have the Ethereum reserved Purpouse"
  | .dpNotValidCoin => "Derivation path does have the correct Coin type Id (Main or Test net)"
  | .dpNotValidAccount => "Derivation path does have the correct account value/type"
  | .dpNotValidChangeIndex => "Derivation path does have the correct Change value or Account Index"
  | .dpNotValidAccountIndex => "Derivation path should have only one value for the Account Index"
  | .dpGenericError => "Something is wrong with the supplied derivation path:"
  | .siNotNumber => "The value passed in as an argument is not a number"
  | .siNotPositive => "The integer value passed in as an argument is not positive"
  | .siNotSafe => "The integer value passed in as an argument outside the safe range"
  | .siGenericError => "Something is wrong with the supplied integer"
  | .bnNotBigNumber => "The value passed in is not a Big Number"
  | .bnGenericError => "Something is wrong with the supplied Big Number value"
  | .addrNotStringSequence => "The address passed in is not a valid String"
  | .addrNotLength => "The address passed in does not have the correct length"
  | .addrNotFormat => "The address passed in is not in the correct format"
  | .addrNotChecksum => "The address passed in does not have the correct checksum"
  | .addrGenericError => "Something is wrong with the supplied address"
  | .hexNotStringSequence => "The hex sequence passed in is not a valid String"
  | .hexNotFormat => "The hex sequence passed in is not in a correct hex format"
  | .hexGenericError => "Something is wrong with the supplied hex sequence"

/-- Outcome of a validator call that does not return: either a raised
validation failure identified by its message-catalog key, or a
JavaScript TypeError (for example calling a method of undefined). -/
inductive JsError where
  | failure (k : MsgKey)
  | typeError
deriving DecidableEq, Repr

deriving instance DecidableEq for Except

/-- Modelled from the spec: the shared assertion primitive assertTruth
of src/utils.js, which is not part of the given sources.  Per section
4.6 of the specification it immediately raises a failure when the
expression is false and returns true otherwise.  The raised failure is
identified here by its message-catalog key. -/
def assertTruth (expression : Bool) (k : MsgKey) : Except JsError Bool :=
  if expression then .ok true else .error (.failure k)

/-- The aggregate fallback shared by all validators: if no collected
test is different from false, throw the generic error of the
validator, otherwise return true.  This mirrors the final
if-not-some-test branch of each validator in validators.js. -/
def aggregateFallback (validationTests : List Bool) (k : MsgKey) :
    Except JsError Bool :=
  if !(validationTests.any (fun test => test != false)) then
    .error (.failure k)
  else
    .ok true

/-- JavaScript String.prototype.split with a nonempty delimiter,
on character lists, implemented with structural fuel (the fuel is the
length of the string, which suffices because every step consumes at
least one character). -/
def splitOnFuel (delim : JsStr) : Nat → JsStr → JsStr → List JsStr
  | 0, cur, rest => [cur.reverse ++ rest]
  | fuel + 1, cur, rest =>
    match rest with
    | [] => [cur.reverse]
    | c :: rs =>
      if delim.isPrefixOf (c :: rs) then
        cur.reverse :: splitOnFuel delim fuel [] (List.drop delim.length (c :: rs))
      else
        splitOnFuel delim fuel (c :: cur) rs

/-- JavaScript split on a nonempty delimiter. -/
def jsSplit (delim s : JsStr) : List JsStr :=
  splitOnFuel delim (s.length + 1) [] s

/-- Array indexing followed by a method call in JavaScript: an
out-of-range access yields undefined, and invoking a method on
undefined throws a TypeError. -/
def jsAt : List JsStr → Nat → Except JsError JsStr
  | [], _ => .error .typeError
  | x :: _, 0 => .ok x
  | _ :: t, n + 1 => jsAt t n

/-- Is the value a string (the JavaScript typeof test)? -/
def isString : Value → Bool
  | .str _ => true
  | _ => false

/-- Extract the character list of a string value; on any other value a
method call such as match would throw a TypeError. -/
def jsStrOf : Value → Except JsError JsStr
  | .str s => .ok s
  | _ => .error .typeError

/-- JavaScript parseInt with radix 10 on a character list: skip an
optional sign, then read the longest leading run of decimal digits;
the result is none (NaN) when that run is empty. -/
def parseIntDec (s : JsStr) : Option Int :=
  let core : JsStr → Option Nat := fun t =>
    let ds := t.takeWhile (fun c => c.isDigit)
    if ds.isEmpty then none
    else some (ds.foldl (fun acc c => 10 * acc + (c.toNat - 48)) 0)
  match s with
  | '-' :: rest => (core rest).map (fun n => -(n : Int))
  | '+' :: rest => (core rest).map (fun n => (n : Int))
  | _ => (core s).map (fun n => (n : Int))

/-- Lower-casing of a character list (String.prototype.toLowerCase,
restricted to the ASCII data the validators handle). -/
def toLowerCase (s : JsStr) : JsStr := s.map Char.toLower

/-- Modelled from the spec: the DIGITS pattern of the missing defaults
module, a digits-only regular expression, matching a nonempty string
of decimal digits. -/
def matchDIGITS (s : JsStr) : Bool :=
  !s.isEmpty && s.all (fun c => c.isDigit)

/-- Modelled from the spec: the path grammar constants of the missing
defaults module, with the field names declared by
DerivationPathDefaultType in the given type sources.  The header key
is the letter m and the purpose is 44 (section 4.1); the mainnet coin
type is 60 (the succeeding test vectors of section 8 use coin 60) and
the testnet coin type is 1 (the standard Ethereum testnet coin type;
the specification names the constant but not its value). -/
structure DerivationPathDefaultType where
  HEADER_KEY : JsStr
  PURPOSE : Int
  COIN_MAINNET : Int
  COIN_TESTNET : Int
  ACCOUNT : Int
  CHANGE : Int
  INDEX : Int
  DELIMITER : JsStr

/-- Modelled from the spec: the PATH constants.  The top-level
DELIMITER is the two-character sequence apostrophe-slash: the
specification states (section 3) that a valid path has exactly four
top-level segments whose first segment carries both the header key and
the purpose (section 4.1 step 3 reads the header key and the purpose
from the first segment), and whose fourth segment joins its one or two
numeric pieces with the slash splitter character (section 3).  Those
constraints determine the delimiter: splitting the grammar
m slash purpose apostrophe slash coinType ... of section 3 into four
such segments is only achieved by the apostrophe-slash delimiter
(the parenthetical glosses of section 4.1 step 1, which name the bare
slash as top-level delimiter, would split the four-segment test
vectors of section 8 into five or more segments and make the first
segment a bare m, contradicting both section 8 and step 3). -/
def PATH : DerivationPathDefaultType :=
  ⟨['m'], 44, 60, 1, 0, 0, 0, [apostrophe, '/']⟩

/-- Modelled from the spec: the SPLITTER constant of the missing
defaults module, the slash character that joins the sub-pieces of a
segment (section 3). -/
def SPLITTER : JsStr := ['/']

/-- The body of the derivation path validator after the guarded
split: the sequence of assertions of src/trezor/validators.js lines
57 to 156, over the list of top-level segments produced by the split
and the tests already collected by the catch branch. -/
def derivationPathChecks (deSerializedDerivationPath : List JsStr)
    (catchTests : List Bool) : Except JsError Bool := do
  let t1 ← assertTruth (deSerializedDerivationPath.length == 4) .dpNotValidParts
  let seg0 ← jsAt deSerializedDerivationPath 0
  let head0 ← jsAt (jsSplit SPLITTER seg0) 0
  let t2 ← assertTruth (toLowerCase head0 == PATH.HEADER_KEY) .dpNotValidHeaderKey
  let t3 ← assertTruth
    ((match (jsSplit SPLITTER seg0)[1]? with
      | some piece => parseIntDec piece
      | none => none) == some PATH.PURPOSE)
    .dpNotValidPurpouse
  let seg1 ← jsAt deSerializedDerivationPath 1
  let coinType := parseIntDec seg1
  let t4 ← assertTruth
    (coinType == some PATH.COIN_MAINNET || coinType == some PATH.COIN_TESTNET)
    .dpNotValidCoin
  let seg2 ← jsAt deSerializedDerivationPath 2
  let t5 ← assertTruth (matchDIGITS seg2) .dpNotValidAccount
  let seg3 ← jsAt deSerializedDerivationPath 3
  let t6 ← assertTruth
    (((jsSplit SPLITTER seg3).map (fun value => matchDIGITS value)).all
      (fun truth => truth != false))
    .dpNotValidChangeIndex
  let t7 ← assertTruth
    (decide ((jsSplit SPLITTER seg3).length ≤ 2))
    .dpNotValidAccountIndex
  aggregateFallback (catchTests ++ [t1, t2, t3, t4, t5, t6, t7]) .dpGenericError

/-- The derivation path validator of src/trezor/validators.js.  The
try/catch around the split is rendered by a match on the value: only
string values have a split method, and on every other value the catch
branch runs the not-a-string assertion while the split result keeps
its initial empty value; the assertion chain after the guarded split
is derivationPathChecks. -/
def derivationPathValidator (derivationPath : Value) : Except JsError Bool := do
  let (catchTests, deSerializedDerivationPath) ←
    match derivationPath with
    | .str s => pure (([] : List Bool), jsSplit PATH.DELIMITER s)
    | v => do
      let t ← assertTruth (isString v) .dpNotString
      pure ([t], ([] : List JsStr))
  derivationPathChecks deSerializedDerivationPath catchTests

/-- Modelled from the spec: the reading of section 4.1 step 1 under
which a failed split only records the not-a-string result as a
candidate and evaluation continues against the empty default split
state.  This variant exists to compare that reading with the source
validator, whose catch branch runs the recording through the
assertion primitive and therefore raises at once. -/
def derivationPathValidatorSpecContinue (derivationPath : Value) :
    Except JsError Bool :=
  match derivationPath with
  | .str s => derivationPathChecks (jsSplit PATH.DELIMITER s) []
  | v => derivationPathChecks [] [isString v]

/-- JavaScript ToNumber on a string, restricted to optionally signed
decimal integer numerals: the empty or all-spaces string converts to
0, a trimmed signed digit string to its value, anything else to NaN
(none).  Only integral numerals are modelled; no claim exercises
fractional string inputs. -/
def toNumberOfStr (s : JsStr) : Option Int :=
  let t := (s.dropWhile (fun c => c == ' ')).reverse
  let t := (t.dropWhile (fun c => c == ' ')).reverse
  if t.isEmpty then some 0
  else
    let core : JsStr → Option Int := fun u =>
      if !u.isEmpty && u.all (fun c => c.isDigit) then
        some ((u.foldl (fun acc c => 10 * acc + (c.toNat - 48)) 0 : Nat) : Int)
      else none
    match t with
    | '-' :: rest => (core rest).map (fun n => -n)
    | '+' :: rest => core rest
    | _ => core t

/-- The JavaScript comparison `value >= 0` under the abstract
relational comparison algorithm: numbers compare directly, strings via
ToNumber (NaN comparisons are false), booleans as 0 or 1, null as 0,
undefined as NaN, and a BN instance via its primitive (decimal string)
value. -/
def jsGEZero : Value → Bool
  | .num n => decide (0 ≤ n)
  | .str s =>
    match toNumberOfStr s with
    | some n => decide (0 ≤ n)
    | none => false
  | .bool _ => true
  | .null => true
  | .undef => false
  | .bn n => decide (0 ≤ n)

/-- JavaScript Number.isSafeInteger: false on every non-number, and on
a number true exactly when its magnitude is at most 2 ^ 53 - 1 (the
modelled numbers are all integral). -/
def isSafeInteger : Value → Bool
  | .num n => decide (n.natAbs ≤ 9007199254740991)
  | _ => false

/-- The safe integer validator of src/trezor/validators.js.  Its first
check asserts the literal expression true (the placeholder
is-a-number check of the source). -/
def safeIntegerValidator (integer : Value) : Except JsError Bool := do
  let t1 ← assertTruth true .siNotNumber
  let t2 ← assertTruth (jsGEZero integer) .siNotPositive
  let t3 ← assertTruth (isSafeInteger integer) .siNotSafe
  aggregateFallback [t1, t2, t3] .siGenericError

/-- BN.isBN: recognizes exactly the BN instances of the value
universe. -/
def isBN : Value → Bool
  | .bn _ => true
  | _ => false

/-- The big number validator of src/trezor/validators.js. -/
def bigNumberValidator (bigNumber : Value) : Except JsError Bool := do
  let t1 ← assertTruth (isBN bigNumber) .bnNotBigNumber
  aggregateFallback [t1] .bnGenericError

/-- Is the character a hexadecimal digit (the character class
0-9a-fA-F of the address and hex-sequence patterns)? -/
def isHexDigitChar (c : Char) : Bool :=
  c.isDigit || ('a' ≤ c && c ≤ 'f') || ('A' ≤ c && c ≤ 'F')

/-- The length property of a JavaScript value: defined on strings,
undefined (none) on every other modelled value. -/
def jsLength : Value → Option Nat
  | .str s => some s.length
  | _ => none

/-- Modelled from the spec: the ADDRESS pattern of the missing
defaults module, the anchored regular expression of section 4.4,
an optional 0x prefix followed by exactly 40 hexadecimal
characters. -/
def matchADDRESS (s : JsStr) : Bool :=
  if s.take 2 == ['0', 'x'] then
    (s.drop 2).length == 40 && (s.drop 2).all isHexDigitChar
  else
    s.length == 40 && s.all isHexDigitChar

/-- Modelled from the spec: the HEX_STRING pattern of the missing
defaults module, per sections 3 and 4.5 an optional 0x prefix
followed by a nonempty even-length string of hexadecimal
characters. -/
def matchHEX_STRING (s : JsStr) : Bool :=
  if s.take 2 == ['0', 'x'] then
    !(s.drop 2).isEmpty && (s.drop 2).all isHexDigitChar &&
      (s.drop 2).length % 2 == 0
  else
    !s.isEmpty && s.all isHexDigitChar && s.length % 2 == 0

/-! ### Keccak-256

Modelled from the spec: the checksum collaborator
(isValidChecksumAddress of the ethereumjs-util dependency) is not part
of the given sources.  Section 4.4 (d) describes it: hash the
lowercase hex digits with Keccak-256 and require each alphabetic hex
character to be uppercase exactly when the corresponding nibble of the
digest is at least 8.  The Keccak-256 permutation and sponge below
follow the Keccak reference (capacity 512, rate 136 bytes, multi-rate
padding with domain byte 0x01); lanes are naturals reduced modulo
2 ^ 64, states are lists of 25 lanes indexed x + 5 * y, and byte
sequences are lists of naturals below 256. -/

/-- Two to the 64, the lane modulus of Keccak. -/
def U64MOD : Nat := 18446744073709551616

/-- All 64 bits set, used to complement a lane. -/
def U64MASK : Nat := 18446744073709551615

/-- Rotate a 64-bit lane left by n bits (0 ≤ n < 64). -/
def rotl64 (x n : Nat) : Nat :=
  ((x <<< n) ||| (x >>> (64 - n))) % U64MOD

/-- The Keccak rotation offsets, indexed by x + 5 * y, generated by
the standard recurrence: starting from lane (1, 0), the lane visited
at step t gets offset (t + 1)(t + 2)/2 modulo 64 and the walk moves
from (x, y) to (y, 2x + 3y mod 5); lane (0, 0) keeps offset 0. -/
def keccakRotOffsets : List Nat :=
  (((List.range 24).foldl
    (fun acc t =>
      match acc with
      | (x, y, offs) =>
        (y, (2 * x + 3 * y) % 5,
         offs.set (x + 5 * y) (((t + 1) * (t + 2) / 2) % 64)))
    (1, 0, List.replicate 25 0)).2).2

/-- The 24 Keccak-f[1600] round constants. -/
def keccakRoundConstants : List Nat :=
  [0x0000000000000001, 0x0000000000008082, 0x800000000000808a,
   0x8000000080008000, 0x000000000000808b, 0x0000000080000001,
   0x8000000080008081, 0x8000000000008009, 0x000000000000008a,
   0x0000000000000088, 0x0000000080008009, 0x000000008000000a,
   0x000000008000808b, 0x800000000000008b, 0x8000000000008089,
   0x8000000000008003, 0x8000000000008002, 0x8000000000000080,
   0x000000000000800a, 0x800000008000000a, 0x8000000080008081,
   0x8000000000008080, 0x0000000080000001, 0x8000000080008008]

/-- The theta step of the Keccak round function. -/
def keccakTheta (A : List Nat) : List Nat :=
  let C := (List.range 5).map (fun x =>
    (A.getD x 0) ^^^ (A.getD (x + 5) 0) ^^^ (A.getD (x + 10) 0) ^^^
    (A.getD (x + 15) 0) ^^^ (A.getD (x + 20) 0))
  let D := (List.range 5).map (fun x =>
    (C.getD ((x + 4) % 5) 0) ^^^ rotl64 (C.getD ((x + 1) % 5) 0) 1)
  (List.range 25).map (fun i => (A.getD i 0) ^^^ (D.getD (i % 5) 0))

/-- The rho and pi steps of the Keccak round function: rotate lane
(x, y) by its offset and move it to position (y, 2x + 3y mod 5). -/
def keccakRhoPi (A : List Nat) : List Nat :=
  (List.range 25).foldl
    (fun B i =>
      let x := i % 5
      let y := i / 5
      B.set (y + 5 * ((2 * x + 3 * y) % 5))
        (rotl64 (A.getD i 0) (keccakRotOffsets.getD i 0)))
    (List.replicate 25 0)

/-- The chi step of the Keccak round function. -/
def keccakChi (B : List Nat) : List Nat :=
  (List.range 25).map (fun i =>
    let x := i % 5
    let y := i / 5
    (B.getD i 0) ^^^
      (((B.getD ((x + 1) % 5 + 5 * y) 0) ^^^ U64MASK) &&&
        (B.getD ((x + 2) % 5 + 5 * y) 0)))

/-- The Keccak-f[1600] permutation: 24 rounds of theta, rho-pi, chi
and iota. -/
def keccakF (A : List Nat) : List Nat :=
  keccakRoundConstants.foldl
    (fun st rc =>
      let B := keccakChi (keccakRhoPi (keccakTheta st))
      B.set 0 ((B.getD 0 0) ^^^ rc))
    A

/-- Read lane i (0 ≤ i < 17) of a 136-byte rate block, little
endian. -/
def laneOfBlock (block : List Nat) (i : Nat) : Nat :=
  (List.range 8).foldl
    (fun acc j => acc ||| ((block.getD (8 * i + j) 0) <<< (8 * j))) 0

/-- Absorb one 136-byte block into the sponge state and permute. -/
def keccakAbsorbBlock (st block : List Nat) : List Nat :=
  keccakF ((List.range 25).map (fun i =>
    (st.getD i 0) ^^^ (if i < 17 then laneOfBlock block i else 0)))

/-- Cut a list into chunks of n bytes (n positive), with structural
fuel. -/
def chunksOfFuel (n : Nat) : Nat → List Nat → List (List Nat)
  | 0, _ => []
  | fuel + 1, l =>
    if l.isEmpty then []
    else l.take n :: chunksOfFuel n fuel (l.drop n)

/-- Keccak-256 of a byte sequence: multi-rate pad with domain byte
0x01 to a multiple of the 136-byte rate, absorb every block, and
squeeze the first 32 bytes of the final state, little endian per
lane. -/
def keccak256 (msg : List Nat) : List Nat :=
  let rate := 136
  let padLen := rate - msg.length % rate
  let padded :=
    msg ++ (if padLen == 1 then [0x81]
            else 0x01 :: (List.replicate (padLen - 2) 0 ++ [0x80]))
  let blocks := chunksOfFuel rate (padded.length) padded
  let final := blocks.foldl keccakAbsorbBlock (List.replicate 25 0)
  (List.range 32).map (fun i => ((final.getD (i / 8) 0) >>> (8 * (i % 8))) % 256)

/-- Nibble i (0 ≤ i < 64) of a 32-byte digest, high nibble first
within each byte, as used to index the checksum digest by character
position. -/
def nibbleAt (digest : List Nat) (i : Nat) : Nat :=
  if i % 2 == 0 then (digest.getD (i / 2) 0) / 16
  else (digest.getD (i / 2) 0) % 16

/-- Modelled from the spec: the EIP-55 mixed-case checksum test of
section 4.4 (d) on the 40 hex digits of an address: hash the
lowercased digits (as ASCII bytes) with Keccak-256; each alphabetic
character must be uppercase exactly when the digest nibble at its
position is at least 8. -/
def hasValidChecksumDigits (digits : JsStr) : Bool :=
  let lower := digits.map Char.toLower
  let digest := keccak256 (lower.map (fun c => c.toNat))
  (List.range 40).all (fun i =>
    let c := digits.getD i ' '
    if c.isAlpha then
      (if 8 ≤ nibbleAt digest i then c.isUpper else c.isLower)
    else true)

/-- Modelled from the spec: isValidChecksumAddress of the
ethereumjs-util dependency: the string must be a well-formed address
(an optional 0x prefix and 40 hex digits) whose digits satisfy the
EIP-55 mixed-case checksum. -/
def isValidChecksumAddress (s : JsStr) : Bool :=
  let digits := match s with
    | '0' :: 'x' :: rest => rest
    | other => other
  digits.length == 40 && digits.all isHexDigitChar &&
    hasValidChecksumDigits digits

/-- The address validator of src/trezor/validators.js.  Note that its
length check raises the notStringSequence catalog entry (source line
291), not the notLength entry of the catalog. -/
def addressValidator (address : Value) : Except JsError Bool := do
  let t1 ← assertTruth (isString address) .addrNotStringSequence
  let t2 ← assertTruth
    (jsLength address == some 40 || jsLength address == some 42)
    .addrNotStringSequence
  let s ← jsStrOf address
  let t3 ← assertTruth (matchADDRESS s) .addrNotFormat
  let t4 ← assertTruth (isValidChecksumAddress s) .addrNotChecksum
  aggregateFallback [t1, t2, t3, t4] .addrGenericError

/-- The hex sequence validator of src/trezor/validators.js. -/
def hexSequenceValidator (string : Value) : Except JsError Bool := do
  let t1 ← assertTruth (isString string) .hexNotStringSequence
  let s ← jsStrOf string
  let t2 ← assertTruth (matchHEX_STRING s) .hexNotFormat
  aggregateFallback [t1, t2] .hexGenericError

/-! ### Helper lemmas -/

theorem okBind {α β : Type} (a : α) (f : α → Except JsError β) :
    (Except.ok a >>= f : Except JsError β) = f a := rfl

theorem errBind {α β : Type} (e : JsError) (f : α → Except JsError β) :
    ((Except.error e : Except JsError α) >>= f) = Except.error e := rfl

theorem assertTruth_true_eq (k : MsgKey) : assertTruth true k = .ok true := rfl

theorem assertTruth_false_eq (k : MsgKey) :
    assertTruth false k = .error (.failure k) := rfl

theorem jsStrOf_str (s : JsStr) : jsStrOf (Value.str s) = .ok s := rfl

theorem jsAt_cons_zero (x : JsStr) (t : List JsStr) :
    jsAt (x :: t) 0 = .ok x := rfl

theorem jsAt_cons_one (x : JsStr) (t : List JsStr) :
    jsAt (x :: t) 1 = jsAt t 0 := rfl

theorem jsAt_cons_two (x : JsStr) (t : List JsStr) :
    jsAt (x :: t) 2 = jsAt t 1 := rfl

theorem jsAt_cons_three (x : JsStr) (t : List JsStr) :
    jsAt (x :: t) 3 = jsAt t 2 := rfl

theorem length_eq_four {α : Type} {l : List α} (h : l.length = 4) :
    ∃ a b c d, l = [a, b, c, d] := by
  rcases l with _ | ⟨a, l⟩
  · simp at h
  rcases l with _ | ⟨b, l⟩
  · simp at h
  rcases l with _ | ⟨c, l⟩
  · simp at h
  rcases l with _ | ⟨d, l⟩
  · simp at h
  rcases l with _ | ⟨e, l⟩
  · exact ⟨a, b, c, d, rfl⟩
  · simp at h

theorem splitOnFuel_ne_nil (delim : JsStr) :
    ∀ (fuel : Nat) (cur rest : JsStr), splitOnFuel delim fuel cur rest ≠ [] := by
  intro fuel
  induction fuel with
  | zero => intro cur rest; simp [splitOnFuel]
  | succ n ih =>
    intro cur rest
    cases rest with
    | nil => simp [splitOnFuel]
    | cons c rs =>
      simp only [splitOnFuel]
      split
      · simp
      · exact ih _ _

theorem jsSplit_ne_nil (delim s : JsStr) : jsSplit delim s ≠ [] :=
  splitOnFuel_ne_nil delim (s.length + 1) [] s

theorem jsAt_zero_of_ne_nil {l : List JsStr} (h : l ≠ []) :
    jsAt l 0 = .ok (l.getD 0 []) := by
  cases l with
  | nil => exact absurd rfl h
  | cons a t => rfl

/-- Exhaustive outcome analysis of the assertion chain of the
derivation path validator on a split with no recorded catch test:
either every check passes and the chain returns true, or some check
raises its specific failure, which is never the generic fallback. -/
theorem derivationPathChecks_cases (l : List JsStr) :
    derivationPathChecks l [] = .ok true ∨
    ∃ k, derivationPathChecks l [] = .error (.failure k) ∧
      k ≠ MsgKey.dpGenericError := by
  unfold derivationPathChecks
  cases hb1 : (l.length == 4) with
  | false => exact Or.inr ⟨.dpNotValidParts, rfl, by decide⟩
  | true =>
    have hlen : l.length = 4 := by
      simpa using hb1
    obtain ⟨a, b, c, d, rfl⟩ := length_eq_four hlen
    simp only [assertTruth_true_eq, okBind, jsAt_cons_zero, jsAt_cons_one,
      jsAt_cons_two, jsAt_cons_three]
    rw [jsAt_zero_of_ne_nil (jsSplit_ne_nil SPLITTER a)]
    simp only [okBind]
    cases hb2 : (toLowerCase ((jsSplit SPLITTER a).getD 0 []) == PATH.HEADER_KEY) with
    | false => exact Or.inr ⟨.dpNotValidHeaderKey, rfl, by decide⟩
    | true =>
    simp only [assertTruth_true_eq, okBind]
    cases hb3 : ((match (jsSplit SPLITTER a)[1]? with
        | some piece => parseIntDec piece
        | none => none) == some PATH.PURPOSE) with
    | false => exact Or.inr ⟨.dpNotValidPurpouse, rfl, by decide⟩
    | true =>
    simp only [assertTruth_true_eq, okBind]
    cases hb4 : (parseIntDec b == some PATH.COIN_MAINNET ||
        parseIntDec b == some PATH.COIN_TESTNET) with
    | false => exact Or.inr ⟨.dpNotValidCoin, rfl, by decide⟩
    | true =>
    simp only [assertTruth_true_eq, okBind]
    cases hb5 : matchDIGITS c with
    | false => exact Or.inr ⟨.dpNotValidAccount, rfl, by decide⟩
    | true =>
    simp only [assertTruth_true_eq, okBind]
    cases hb6 : (((jsSplit SPLITTER d).map (fun value => matchDIGITS value)).all
        (fun truth => truth != false)) with
    | false => exact Or.inr ⟨.dpNotValidChangeIndex, rfl, by decide⟩
    | true =>
    simp only [assertTruth_true_eq, okBind]
    cases hb7 : (decide ((jsSplit SPLITTER d).length ≤ 2)) with
    | false => exact Or.inr ⟨.dpNotValidAccountIndex, rfl, by decide⟩
    | true => exact Or.inl rfl

/-! ### Claim theorems -/

/-- Claim C1, counterexample.  The three test vectors of the claim
carry the apostrophe only after the purpose segment, so splitting them
on the apostrophe-slash path delimiter yields two top-level segments,
not four: on each of them the validator raises the wrong-part-count
failure.  In particular the first two do not return true and the third
does not raise the bad-index-count failure. -/
theorem claimC1_counterexample :
    derivationPathValidator (.str
        ['m', '/', '4', '4', apostrophe, '/', '6', '0', '/', '0', '/', '0']) =
      .error (.failure .dpNotValidParts) ∧
    derivationPathValidator (.str
        ['m', '/', '4', '4', apostrophe, '/', '6', '0', '/', '0', '/', '0',
         '/', '1']) =
      .error (.failure .dpNotValidParts) ∧
    derivationPathValidator (.str
        ['m', '/', '4', '4', apostrophe, '/', '6', '0', '/', '0', '/', '0',
         '/', '1', '/', '2']) =
      .error (.failure .dpNotValidParts) ∧
    derivationPathValidator (.str
        ['m', '/', '4', '4', apostrophe, '/', '6', '0', '/', '0', '/', '0']) ≠
      .ok true :=
  ⟨rfl, rfl, rfl, by decide⟩

/-- Claim C1, amended.  With every interior segment boundary written
as apostrophe-slash (the BIP44 hardened Ethereum paths the grammar
constants accept), the validator returns true on the four-segment
path, returns true when the fourth segment has two sub-segments, and
raises the bad-index-count failure (the notValidAccountIndex catalog
entry) when the fourth segment has three sub-segments. -/
theorem claimC1_amended :
    derivationPathValidator (.str
        ['m', '/', '4', '4', apostrophe, '/', '6', '0', apostrophe, '/', '0',
         apostrophe, '/', '0']) = .ok true ∧
    derivationPathValidator (.str
        ['m', '/', '4', '4', apostrophe, '/', '6', '0', apostrophe, '/', '0',
         apostrophe, '/', '0', '/', '1']) = .ok true ∧
    derivationPathValidator (.str
        ['m', '/', '4', '4', apostrophe, '/', '6', '0', apostrophe, '/', '0',
         apostrophe, '/', '0', '/', '1', '/', '2']) =
      .error (.failure .dpNotValidAccountIndex) :=
  ⟨rfl, rfl, rfl⟩

/-- Claim C3: the safe integer validator returns true on the largest
safe integer, raises the not-safe failure just above it, and raises
the not-positive failure on minus one; the non-negativity check runs
before the safe-integer check, so a negative value outside the safe
range still fails as not-positive. -/
theorem claimC3_examples :
    safeIntegerValidator (.num 9007199254740991) = .ok true ∧
    safeIntegerValidator (.num 9007199254740992) = .error (.failure .siNotSafe) ∧
    safeIntegerValidator (.num (-1)) = .error (.failure .siNotPositive) ∧
    safeIntegerValidator (.num (-9007199254740993)) =
      .error (.failure .siNotPositive) :=
  ⟨rfl, rfl, rfl, rfl⟩

/-- Claim C5: on a 39-character string the address validator raises at
its length check, but the failure it raises carries the
notStringSequence catalog entry (the string-type diagnostic), not the
notLength entry the catalog defines for bad lengths; the notLength
entry exists in the catalog yet differs from the key actually
raised. -/
theorem claimC5_code_divergence :
    addressValidator (.str (List.replicate 39 'a')) =
      .error (.failure .addrNotStringSequence) ∧
    messageText .addrNotLength =
      "The address passed in does not have the correct length" ∧
    MsgKey.addrNotStringSequence ≠ MsgKey.addrNotLength :=
  ⟨rfl, rfl, by decide⟩

/-- Claim C7, counterexample.  On the non-string input 42 the source
validator raises the not-a-string failure at once, because the catch
branch records the failed type check through the raising assertion
primitive; under the continue-after-recording reading of the claim the
outcome would instead be decided by the later checks against the empty
split state, whose first failure is the wrong-part-count key.  The two
outcomes differ, so evaluation does not continue past the recording. -/
theorem claimC7_counterexample :
    derivationPathValidator (.num 42) = .error (.failure .dpNotString) ∧
    derivationPathValidatorSpecContinue (.num 42) =
      .error (.failure .dpNotValidParts) ∧
    MsgKey.dpNotString ≠ MsgKey.dpNotValidParts :=
  ⟨rfl, rfl, by decide⟩

/-- Claim C7, amended: on every non-string input the derivation path
validator raises the not-a-string failure immediately; the remaining
checks are not evaluated. -/
theorem claimC7_amended :
    ∀ v : Value, isString v = false →
      derivationPathValidator v = .error (.failure .dpNotString) := by
  intro v h
  cases v with
  | str s => simp [isString] at h
  | num n => rfl
  | bool b => rfl
  | null => rfl
  | undef => rfl
  | bn n => rfl

/-- Claim C7, witness for the amended theorem at the concrete
non-string input 42. -/
theorem claimC7_amended_witness :
    isString (Value.num 42) = false ∧
    derivationPathValidator (Value.num 42) = .error (.failure .dpNotString) :=
  ⟨rfl, claimC7_amended (Value.num 42) rfl⟩

/-- Claim C10: on every string input the derivation path validator is
total and never trips on an out-of-range segment access (which would
surface as a TypeError): it either returns true or raises a typed
failure, and that failure is never the generic fallback. -/
theorem claimC10_total :
    ∀ s : JsStr,
      derivationPathValidator (.str s) = .ok true ∨
      ∃ k, derivationPathValidator (.str s) = .error (.failure k) ∧
        k ≠ MsgKey.dpGenericError := by
  intro s
  have h : derivationPathValidator (.str s) =
      derivationPathChecks (jsSplit PATH.DELIMITER s) [] := rfl
  rw [h]
  exact derivationPathChecks_cases (jsSplit PATH.DELIMITER s)

/-- Claim C4: the safe integer validator never raises the
not-a-number failure, on any input of the value universe, because its
is-a-number check asserts the literal expression true. -/
theorem claimC4_never_notNumber :
    ∀ v : Value, safeIntegerValidator v ≠ .error (.failure .siNotNumber) := by
  intro v
  have key : ∀ b2 b3 : Bool,
      (assertTruth b2 .siNotPositive >>= fun t2 =>
       assertTruth b3 .siNotSafe >>= fun t3 =>
       aggregateFallback [true, t2, t3] .siGenericError) ≠
        .error (.failure .siNotNumber) := by
    intro b2 b3
    cases b2 <;> cases b3 <;> decide
  have h : safeIntegerValidator v =
      (assertTruth (jsGEZero v) .siNotPositive >>= fun t2 =>
       assertTruth (isSafeInteger v) .siNotSafe >>= fun t3 =>
       aggregateFallback [true, t2, t3] .siGenericError) := rfl
  rw [h]
  exact key _ _

/-- Claim C6: under the documented behavior of the shared assertion
primitive (raise on a false expression, return true otherwise), no
validator ever raises its generic aggregate-fallback error, on any
input: whenever the fallback condition is tested, every collected
test is true and the list is non-empty. -/
theorem claimC6_no_generic :
    ∀ v : Value,
      derivationPathValidator v ≠ .error (.failure .dpGenericError) ∧
      safeIntegerValidator v ≠ .error (.failure .siGenericError) ∧
      bigNumberValidator v ≠ .error (.failure .bnGenericError) ∧
      addressValidator v ≠ .error (.failure .addrGenericError) ∧
      hexSequenceValidator v ≠ .error (.failure .hexGenericError) := by
  intro v
  refine ⟨?_, ?_, ?_, ?_, ?_⟩
  · cases v with
    | str s =>
      have h : derivationPathValidator (.str s) =
          derivationPathChecks (jsSplit PATH.DELIMITER s) [] := rfl
      rw [h]
      rcases derivationPathChecks_cases (jsSplit PATH.DELIMITER s) with
        h1 | ⟨k, hk, hne⟩
      · rw [h1]; decide
      · rw [hk]
        intro hcontra
        injection hcontra with h2
        injection h2 with h3
        exact hne h3
    | num n =>
      have h : derivationPathValidator (.num n) =
          .error (.failure .dpNotString) := rfl
      rw [h]; decide
    | bool b =>
      have h : derivationPathValidator (.bool b) =
          .error (.failure .dpNotString) := rfl
      rw [h]; decide
    | null =>
      have h : derivationPathValidator .null =
          .error (.failure .dpNotString) := rfl
      rw [h]; decide
    | undef =>
      have h : derivationPathValidator .undef =
          .error (.failure .dpNotString) := rfl
      rw [h]; decide
    | bn n =>
      have h : derivationPathValidator (.bn n) =
          .error (.failure .dpNotString) := rfl
      rw [h]; decide
  · have key : ∀ b2 b3 : Bool,
        (assertTruth b2 .siNotPositive >>= fun t2 =>
         assertTruth b3 .siNotSafe >>= fun t3 =>
         aggregateFallback [true, t2, t3] .siGenericError) ≠
          .error (.failure .siGenericError) := by
      intro b2 b3
      cases b2 <;> cases b3 <;> decide
    have h : safeIntegerValidator v =
        (assertTruth (jsGEZero v) .siNotPositive >>= fun t2 =>
         assertTruth (isSafeInteger v) .siNotSafe >>= fun t3 =>
         aggregateFallback [true, t2, t3] .siGenericError) := rfl
    rw [h]
    exact key _ _
  · have key : ∀ b1 : Bool,
        (assertTruth b1 .bnNotBigNumber >>= fun t1 =>
         aggregateFallback [t1] .bnGenericError) ≠
          .error (.failure .bnGenericError) := by
      intro b1
      cases b1 <;> decide
    have h : bigNumberValidator v =
        (assertTruth (isBN v) .bnNotBigNumber >>= fun t1 =>
         aggregateFallback [t1] .bnGenericError) := rfl
    rw [h]
    exact key _
  · cases v with
    | str s =>
      have key : ∀ b2 b3 b4 : Bool,
          (assertTruth b2 .addrNotStringSequence >>= fun t2 =>
           assertTruth b3 .addrNotFormat >>= fun t3 =>
           assertTruth b4 .addrNotChecksum >>= fun t4 =>
           aggregateFallback [true, t2, t3, t4] .addrGenericError) ≠
            .error (.failure .addrGenericError) := by
        intro b2 b3 b4
        cases b2 <;> cases b3 <;> cases b4 <;> decide
      have h : addressValidator (.str s) =
          (assertTruth (jsLength (Value.str s) == some 40 ||
              jsLength (Value.str s) == some 42) .addrNotStringSequence >>=
            fun t2 =>
           assertTruth (matchADDRESS s) .addrNotFormat >>= fun t3 =>
           assertTruth (isValidChecksumAddress s) .addrNotChecksum >>= fun t4 =>
           aggregateFallback [true, t2, t3, t4] .addrGenericError) := rfl
      rw [h]
      exact key _ _ _
    | num n =>
      have h : addressValidator (.num n) =
          .error (.failure .addrNotStringSequence) := rfl
      rw [h]; decide
    | bool b =>
      have h : addressValidator (.bool b) =
          .error (.failure .addrNotStringSequence) := rfl
      rw [h]; decide
    | null =>
      have h : addressValidator .null =
          .error (.failure .addrNotStringSequence) := rfl
      rw [h]; decide
    | undef =>
      have h : addressValidator .undef =
          .error (.failure .addrNotStringSequence) := rfl
      rw [h]; decide
    | bn n =>
      have h : addressValidator (.bn n) =
          .error (.failure .addrNotStringSequence) := rfl
      rw [h]; decide
  · cases v with
    | str s =>
      have key : ∀ b2 : Bool,
          (assertTruth b2 .hexNotFormat >>= fun t2 =>
           aggregateFallback [true, t2] .hexGenericError) ≠
            .error (.failure .hexGenericError) := by
        intro b2
        cases b2 <;> decide
      have h : hexSequenceValidator (.str s) =
          (assertTruth (matchHEX_STRING s) .hexNotFormat >>= fun t2 =>
           aggregateFallback [true, t2] .hexGenericError) := rfl
      rw [h]
      exact key _
    | num n =>
      have h : hexSequenceValidator (.num n) =
          .error (.failure .hexNotStringSequence) := rfl
      rw [h]; decide
    | bool b =>
      have h : hexSequenceValidator (.bool b) =
          .error (.failure .hexNotStringSequence) := rfl
      rw [h]; decide
    | null =>
      have h : hexSequenceValidator .null =
          .error (.failure .hexNotStringSequence) := rfl
      rw [h]; decide
    | undef =>
      have h : hexSequenceValidator .undef =
          .error (.failure .hexNotStringSequence) := rfl
      rw [h]; decide
    | bn n =>
      have h : hexSequenceValidator (.bn n) =
          .error (.failure .hexNotStringSequence) := rfl
      rw [h]; decide

/-- Claim C9: every validator is deterministic; two invocations on the
same input yield the same outcome (the embedding is a pure function of
its input, as the source validators keep no state between calls). -/
theorem claimC9_deterministic :
    ∀ (v : Value) (r₁ r₂ : Except JsError Bool),
      ((derivationPathValidator v = r₁ ∧ derivationPathValidator v = r₂) →
        r₁ = r₂) ∧
      ((safeIntegerValidator v = r₁ ∧ safeIntegerValidator v = r₂) →
        r₁ = r₂) ∧
      ((bigNumberValidator v = r₁ ∧ bigNumberValidator v = r₂) → r₁ = r₂) ∧
      ((addressValidator v = r₁ ∧ addressValidator v = r₂) → r₁ = r₂) ∧
      ((hexSequenceValidator v = r₁ ∧ hexSequenceValidator v = r₂) →
        r₁ = r₂) := by
  intro v r₁ r₂
  exact ⟨fun h => h.1.symm.trans h.2, fun h => h.1.symm.trans h.2,
    fun h => h.1.symm.trans h.2, fun h => h.1.symm.trans h.2,
    fun h => h.1.symm.trans h.2⟩

/-- Claim C9, witness at the concrete input 1 (a number): each
validator yields its computed outcome on both of two invocations. -/
theorem claimC9_deterministic_witness :
    (Except.error (JsError.failure MsgKey.dpNotString) :
        Except JsError Bool) = .error (.failure .dpNotString) ∧
    (Except.ok true : Except JsError Bool) = .ok true ∧
    (Except.error (JsError.failure MsgKey.bnNotBigNumber) :
        Except JsError Bool) = .error (.failure .bnNotBigNumber) ∧
    (Except.error (JsError.failure MsgKey.addrNotStringSequence) :
        Except JsError Bool) = .error (.failure .addrNotStringSequence) ∧
    (Except.error (JsError.failure MsgKey.hexNotStringSequence) :
        Except JsError Bool) = .error (.failure .hexNotStringSequence) :=
  ⟨(claimC9_deterministic (.num 1) _ _).1 ⟨rfl, rfl⟩,
   (claimC9_deterministic (.num 1) _ _).2.1 ⟨rfl, rfl⟩,
   (claimC9_deterministic (.num 1) _ _).2.2.1 ⟨rfl, rfl⟩,
   (claimC9_deterministic (.num 1) _ _).2.2.2.1 ⟨rfl, rfl⟩,
   (claimC9_deterministic (.num 1) _ _).2.2.2.2 ⟨rfl, rfl⟩⟩

set_option maxRecDepth 200000 in
/-- Claim C2, counterexample.  The address the claim calls correctly
checksummed is not: the Keccak-256 digest of its lowercase digits
dictates uppercase at several positions where the claimed vector is
lowercase (for example its tenth character), so the validator raises
the bad-checksum failure on it instead of returning true. -/
theorem claimC2_counterexample :
    addressValidator (.str
        ("0x5aAeb6053f3e94c9b9a09f33669435E7ef1BeAed".toList)) =
      .error (.failure .addrNotChecksum) ∧
    addressValidator (.str
        ("0x5aAeb6053f3e94c9b9a09f33669435E7ef1BeAed".toList)) ≠
      .ok true := by
  have h1 : addressValidator (.str
      ("0x5aAeb6053f3e94c9b9a09f33669435E7ef1BeAed".toList)) =
      .error (.failure .addrNotChecksum) := by rfl
  exact ⟨h1, by rw [h1]; decide⟩

set_option maxRecDepth 200000 in
/-- Claim C2, amended.  On the same forty hex digits with the casing
the EIP-55 rule actually dictates, the validator returns true, and on
the all-lowercase variant of those digits (which passes the string,
length and format checks) it raises the bad-checksum failure; the
checksum test hashes the lowercase digits with Keccak-256 and requires
uppercase exactly at the positions whose digest nibble is at least
eight. -/
theorem claimC2_amended :
    addressValidator (.str
        ("0x5aAeb6053F3E94C9b9A09f33669435E7Ef1BeAed".toList)) = .ok true ∧
    addressValidator (.str
        ("0x5aaeb6053f3e94c9b9a09f33669435e7ef1beaed".toList)) =
      .error (.failure .addrNotChecksum) := by
  exact ⟨by rfl, by rfl⟩

theorem matchHEX_STRING_cons2 (rest : JsStr) :
    matchHEX_STRING ('0' :: 'x' :: rest) =
      (!rest.isEmpty && rest.all isHexDigitChar && rest.length % 2 == 0) := rfl

/-- Claim C8: the hex sequence validator returns true on 0xdeadbeef,
raises the bad-format failure on not-hex, and raises the
not-a-string failure on the number 42; moreover the accepted language
is exactly the strings consisting of an optional 0x prefix followed by
a nonempty even-length run of hexadecimal characters: the format
pattern recognizes exactly that language, and the validator returns
true on exactly the strings the pattern recognizes. -/
theorem claimC8_hex :
    hexSequenceValidator (.str "0xdeadbeef".toList) = .ok true ∧
    hexSequenceValidator (.str "not-hex".toList) =
      .error (.failure .hexNotFormat) ∧
    hexSequenceValidator (.num 42) =
      .error (.failure .hexNotStringSequence) ∧
    (∀ s : JsStr, matchHEX_STRING s = true ↔
      ((∃ body, s = '0' :: 'x' :: body ∧ body ≠ [] ∧
          body.all isHexDigitChar = true ∧ body.length % 2 = 0) ∨
       (s ≠ [] ∧ s.all isHexDigitChar = true ∧ s.length % 2 = 0))) ∧
    (∀ s : JsStr,
      hexSequenceValidator (.str s) = .ok true ↔ matchHEX_STRING s = true) := by
  refine ⟨rfl, rfl, rfl, ?_, ?_⟩
  · intro s
    by_cases hp : s.take 2 = ['0', 'x']
    · rcases s with _ | ⟨c1, _ | ⟨c2, rest⟩⟩
      · simp at hp
      · simp at hp
      · have h12 : c1 = '0' ∧ c2 = 'x' := by simpa using hp
        obtain ⟨rfl, rfl⟩ := h12
        rw [matchHEX_STRING_cons2]
        constructor
        · intro h
          simp only [Bool.and_eq_true, Bool.not_eq_true',
            List.isEmpty_eq_false, beq_iff_eq] at h
          left
          exact ⟨rest, rfl, h.1.1, h.1.2, h.2⟩
        · rintro (⟨body, heq, hne, hall, hlen⟩ | ⟨hne, hall, hlen⟩)
          · have hbody : rest = body := by simpa using heq
            subst hbody
            simp [hne, hall, hlen]
          · have hx : isHexDigitChar 'x' = false := by decide
            simp [hx] at hall
    · have hb : (s.take 2 == ['0', 'x']) = false := by
        simpa using hp
      constructor
      · intro h
        unfold matchHEX_STRING at h
        rw [hb] at h
        rw [if_neg (by simp)] at h
        simp only [Bool.and_eq_true, Bool.not_eq_true',
          List.isEmpty_eq_false, beq_iff_eq] at h
        right
        exact ⟨h.1.1, h.1.2, h.2⟩
      · rintro (⟨body, heq, hne, hall, hlen⟩ | ⟨hne, hall, hlen⟩)
        · exact absurd (by rw [heq]; simp) hp
        · unfold matchHEX_STRING
          rw [hb]
          simp [hne, hall, hlen]
  · intro s
    have h : hexSequenceValidator (.str s) =
        (assertTruth (matchHEX_STRING s) .hexNotFormat >>= fun t2 =>
         aggregateFallback [true, t2] .hexGenericError) := rfl
    rw [h]
    cases hm : matchHEX_STRING s <;> decide

end Purser
